import Mathlib

/-!
Verification of the periodic context-gathering scheduler.

The repository contains two implementations of the same scheduling contract:

* a standalone Node script (class `PeriodicContextGatherer` in
  `scripts/periodic-context-gather.js`): a constructor taking
  `(codebasePath, intervalMinutes)`, an async `gatherContext` tick guarded by
  the `isRunning` in-flight flag, `start`/`stop` lifecycle methods keyed on the
  `intervalId` timer handle, and a CLI `main`;
* a React hook (`usePeriodicContextGather.js`): `gatherContext` guarded by
  `isRunningRef` and an empty `codebasePath`, `startPeriodicGathering` /
  `stopPeriodicGathering` keyed on `intervalRef`, feeding a successful outcome
  into the application state through `setContextGathered(true)`.

Both run on a single-threaded event loop, so each handler body between
suspension points executes atomically.  The embedding models every console
line as a `Report` value, the single `await` inside a tick by splitting the
tick into a synchronous begin phase (`gatherBegin`) and a completion phase
(`gatherComplete`, covering the `then`/`catch`/`finally` continuations), and
the event loop by a `step` function over externally chosen events
(timer firing, promise settling, `start`/`stop` calls).
-/

namespace PeriodicContextGather

/-- One console line emitted by the Node scheduler.  Constructors mirror the
`console.log` / `console.error` calls of `gatherContext`, `start` and `stop`. -/
inductive Report where
  /-- "Context gathering already in progress, skipping..." -/
  | skipped : Report
  /-- "Starting context gathering for: `path`" — marks the begin of one invocation. -/
  | starting (path : String) : Report
  /-- "Context gathering completed successfully" plus detail and time taken. -/
  | completedSuccess (detail : String) (timeTaken : Nat) : Report
  /-- "Context gathering completed with warnings" (resolved, but no
  `statuscode == 200` in the body). -/
  | completedWarnings : Report
  /-- "Context gathering failed" with an HTTP error response (`error.response`). -/
  | failedStatus (status : Nat) (msg : String) : Report
  /-- "Context gathering failed" with a network error (`error.request`). -/
  | failedNetwork : Report
  /-- "Context gathering failed" with any other error. -/
  | failedOther (msg : String) : Report
  /-- The "Starting periodic context gathering..." banner block printed by `start`. -/
  | startBanner : Report
  /-- "Periodic context gathering is already running" printed by a redundant `start`. -/
  | alreadyRunning : Report
  /-- "Periodic context gathering stopped" printed by `stop`. -/
  | stopped : Report
  deriving DecidableEq, Repr

/-- The ways the single axios `post` of one invocation can settle, mirroring the
branches of the `try`/`catch` in `gatherContext`: a resolved response (whose
body may or may not carry `statuscode == 200`), a rejection carrying an HTTP
response (`error.response`), a rejection with no response (`error.request`,
i.e. a network error), or any other rejection. -/
inductive CallResult where
  | resolved (hasData : Bool) (statuscode : Nat) (detail : String) (timeTaken : Nat) : CallResult
  | rejectedResponse (status : Nat) (msg : String) : CallResult
  | rejectedRequest : CallResult
  | rejectedOther (msg : String) : CallResult
  deriving DecidableEq, Repr

/-- The mutable fields of a `PeriodicContextGatherer` instance, plus the log of
reports it has emitted (most recent first).  `intervalId` is the timer handle
(`null` or an opaque handle), `isRunning` the in-flight flag. -/
structure GState where
  codebasePath : String
  intervalMinutes : Int
  intervalId : Option Unit
  isRunning : Bool
  log : List Report
  deriving DecidableEq, Repr

/-- The constructor `new PeriodicContextGatherer(codebasePath, intervalMinutes)`:
timer unarmed, not in flight, nothing logged. -/
def initGatherer (codebasePath : String) (intervalMinutes : Int) : GState :=
  { codebasePath := codebasePath
    intervalMinutes := intervalMinutes
    intervalId := none
    isRunning := false
    log := [] }

/-- Recognizes the report that marks the begin of an invocation. -/
def isStartingReport : Report → Bool
  | Report.starting _ => true
  | _ => false

/-- Number of invocations begun so far: one `starting` report is logged exactly
when `gatherContext` passes its guard and issues the remote call. -/
def invocCount (s : GState) : Nat :=
  s.log.countP isStartingReport

/-- The synchronous prefix of `gatherContext` (everything before the `await`):
if `isRunning` is set, log the skip and return; otherwise set `isRunning`, log
the start line and issue the remote call. -/
def gatherBegin (s : GState) : GState :=
  if s.isRunning then
    { s with log := Report.skipped :: s.log }
  else
    { s with isRunning := true, log := Report.starting s.codebasePath :: s.log }

/-- The continuation of `gatherContext` once the awaited call settles: the
`try` success branches, the `catch` classification, and the `finally` that
clears `isRunning` in every case. -/
def gatherComplete (s : GState) (r : CallResult) : GState :=
  let t :=
    match r with
    | CallResult.resolved hasData statuscode detail timeTaken =>
        if hasData && statuscode == 200 then
          { s with log := Report.completedSuccess detail timeTaken :: s.log }
        else
          { s with log := Report.completedWarnings :: s.log }
    | CallResult.rejectedResponse status msg =>
        { s with log := Report.failedStatus status msg :: s.log }
    | CallResult.rejectedRequest =>
        { s with log := Report.failedNetwork :: s.log }
    | CallResult.rejectedOther msg =>
        { s with log := Report.failedOther msg :: s.log }
  { t with isRunning := false }

/-- `start()`: if a timer handle exists, log "already running" and return;
otherwise log the banner, run `gatherContext()` immediately (its synchronous
prefix executes before `setInterval` is reached), then arm the timer. -/
def start (s : GState) : GState :=
  match s.intervalId with
  | some _ => { s with log := Report.alreadyRunning :: s.log }
  | none =>
      let s1 := { s with log := Report.startBanner :: s.log }
      let s2 := gatherBegin s1
      { s2 with intervalId := some () }

/-- `stop()`: if a timer handle exists, clear it and log; otherwise do nothing. -/
def stop (s : GState) : GState :=
  match s.intervalId with
  | some _ => { s with intervalId := none, log := Report.stopped :: s.log }
  | none => s

/-- One event-loop occurrence affecting the scheduler: the interval timer
firing, the pending invocation's promise settling, or an owner calling
`start`/`stop`. -/
inductive GEvent where
  | timerFire : GEvent
  | complete (r : CallResult) : GEvent
  | startCall : GEvent
  | stopCall : GEvent
  deriving DecidableEq, Repr

/-- Event-loop semantics.  A fire of a cleared timer is a no-op
(`clearInterval`); a completion event only exists while an invocation is
pending, i.e. while `isRunning` is set. -/
def step (s : GState) : GEvent → GState
  | GEvent.timerFire =>
      match s.intervalId with
      | some _ => gatherBegin s
      | none => s
  | GEvent.complete r => if s.isRunning then gatherComplete s r else s
  | GEvent.startCall => start s
  | GEvent.stopCall => stop s

/-- A success report, as logged for a body with `statuscode == 200`. -/
def isSuccessReport : Report → Bool
  | Report.completedSuccess _ _ => true
  | _ => false

/-- A failure-classified report: logical failure (resolved without
`statuscode == 200`), HTTP error response, network error, or other error. -/
def isFailureReport : Report → Bool
  | Report.completedWarnings => true
  | Report.failedStatus _ _ => true
  | Report.failedNetwork => true
  | Report.failedOther _ => true
  | _ => false

/-- A report recording the outcome of one settled invocation. -/
def isOutcomeReport (r : Report) : Bool :=
  isSuccessReport r || isFailureReport r

/-- The overlap-skip report. -/
def isSkipReport : Report → Bool
  | Report.skipped => true
  | _ => false

/-! ### The React hook `usePeriodicContextGather` -/

/-- One console line emitted by the hook's `gatherContext` /
`startPeriodicGathering` / `stopPeriodicGathering`. -/
inductive HookReport where
  /-- "Starting periodic context gathering..." inside `gatherContext`. -/
  | startingGather : HookReport
  /-- "Context gathering completed:" with statuscode, time taken and detail. -/
  | completed (statuscode : Nat) (timeTaken : Nat) (detail : String) : HookReport
  /-- "Periodic context gathering failed:" from the `catch` block. -/
  | failed (msg : String) : HookReport
  /-- "Starting periodic context gathering every N minutes". -/
  | startedPeriodic : HookReport
  /-- "Stopping periodic context gathering". -/
  | stoppedPeriodic : HookReport
  deriving DecidableEq, Repr

/-- How `contextService.gatherContext` settles for the hook: a resolved
response body, or a rejection (the service rethrows every error). -/
inductive HookCallResult where
  | resolved (statuscode : Nat) (timeTaken : Nat) (detail : String) : HookCallResult
  | rejected (msg : String) : HookCallResult
  deriving DecidableEq, Repr

/-- The hook's state: the app-level `state.codebasePath` (empty string for
unset) and `state.isContextGathered`, the `intervalRef` timer handle, the
`isRunningRef` in-flight flag, and the log of reports. -/
structure HookState where
  codebasePath : String
  isContextGathered : Bool
  intervalRef : Option Unit
  isRunningRef : Bool
  log : List HookReport
  deriving DecidableEq, Repr

/-- Number of invocations the hook has begun. -/
def hookInvocCount (h : HookState) : Nat :=
  h.log.countP fun r =>
    match r with
    | HookReport.startingGather => true
    | _ => false

/-- The synchronous prefix of the hook's `gatherContext`:
`if (!state.codebasePath || isRunningRef.current) return;` — a silent early
return — else set the flag and log the start line. -/
def hookGatherBegin (h : HookState) : HookState :=
  if h.codebasePath = "" || h.isRunningRef then h
  else { h with isRunningRef := true, log := HookReport.startingGather :: h.log }

/-- The continuation of the hook's `gatherContext`: log the completion, call
`actions.setContextGathered(true)` when `statuscode === 200`, log failures in
the `catch`, and clear `isRunningRef` in the `finally`. -/
def hookGatherComplete (h : HookState) (r : HookCallResult) : HookState :=
  let t :=
    match r with
    | HookCallResult.resolved statuscode timeTaken detail =>
        let h1 := { h with log := HookReport.completed statuscode timeTaken detail :: h.log }
        if statuscode == 200 then { h1 with isContextGathered := true } else h1
    | HookCallResult.rejected msg =>
        { h with log := HookReport.failed msg :: h.log }
  { t with isRunningRef := false }

/-- `startPeriodicGathering`: silent early return when a timer is already
armed or the codebase path is unset; otherwise log and arm the interval.
It performs no immediate invocation. -/
def startPeriodicGathering (h : HookState) : HookState :=
  if h.intervalRef.isSome || h.codebasePath = "" then h
  else { h with intervalRef := some (), log := HookReport.startedPeriodic :: h.log }

/-- `stopPeriodicGathering`: clear the armed interval and log; no-op otherwise. -/
def stopPeriodicGathering (h : HookState) : HookState :=
  match h.intervalRef with
  | some _ => { h with intervalRef := none, log := HookReport.stoppedPeriodic :: h.log }
  | none => h

/-! ### The CLI `main` of the Node script -/

/-- Leading decimal digits of a character list, `none` when there are none. -/
def parseDigits (cs : List Char) : Option Nat :=
  let ds := cs.takeWhile Char.isDigit
  if ds.isEmpty then none
  else some (ds.foldl (fun a c => a * 10 + (c.toNat - 48)) 0)

/-- Value of one hexadecimal digit. -/
def hexVal (c : Char) : Nat :=
  if c.isDigit then c.toNat - 48
  else if 'a' ≤ c && c ≤ 'f' then c.toNat - 87
  else c.toNat - 55

/-- Whether a character is a hexadecimal digit. -/
def isHexDigit (c : Char) : Bool :=
  c.isDigit || ('a' ≤ c && c ≤ 'f') || ('A' ≤ c && c ≤ 'F')

/-- Leading hexadecimal digits of a character list, `none` when there are none. -/
def parseHexDigits (cs : List Char) : Option Nat :=
  let ds := cs.takeWhile isHexDigit
  if ds.isEmpty then none
  else some (ds.foldl (fun a c => a * 16 + hexVal c) 0)

/-- The magnitude `parseInt` reads with no radix argument: a `0x`/`0X` prefix
switches to hexadecimal (with `NaN` when no hex digit follows the prefix),
otherwise the longest decimal digit prefix. -/
def parseUnsigned (cs : List Char) : Option Nat :=
  match cs with
  | '0' :: 'x' :: rest => parseHexDigits rest
  | '0' :: 'X' :: rest => parseHexDigits rest
  | _ => parseDigits cs

/-- JavaScript `parseInt(s)` with no radix argument: skip leading whitespace,
an optional sign, then either a `0x`/`0X`-prefixed hexadecimal numeral or the
longest decimal digit prefix; `none` models `NaN`. -/
def jsParseInt (s : String) : Option Int :=
  let cs := s.toList.dropWhile fun c => c = ' ' || c = '\t' || c = '\n' || c = '\r'
  match cs with
  | '-' :: rest => (parseUnsigned rest).map fun n => -(n : Int)
  | '+' :: rest => (parseUnsigned rest).map fun n => (n : Int)
  | _ => (parseUnsigned cs).map fun n => (n : Int)

/-- `DEFAULT_INTERVAL_MINUTES` from the script. -/
def DEFAULT_INTERVAL_MINUTES : Int := 3

/-- `parseInt(args[1]) || DEFAULT_INTERVAL_MINUTES`: the falsy values `NaN`
(absent or unparseable argument) and `0` fall back to the default. -/
def resolveInterval (arg : Option String) : Int :=
  match arg with
  | none => DEFAULT_INTERVAL_MINUTES
  | some a =>
      match jsParseInt a with
      | none => DEFAULT_INTERVAL_MINUTES
      | some n => if n = 0 then DEFAULT_INTERVAL_MINUTES else n

/-- How `main` terminates: printing usage and exiting 0, exiting 1 over a
missing/empty codebase path, exiting 1 over a too-small interval, or
constructing the gatherer and calling `start()` on it.  Only the last carries
a scheduler: the error exits happen before any scheduler exists. -/
inductive MainResult where
  | helpExit : MainResult
  | missingPathExit : MainResult
  | intervalExit : MainResult
  | started (st : GState) : MainResult
  deriving DecidableEq, Repr

/-- The CLI `main`: help flag check, then
`codebasePath = args[0]`, `intervalMinutes = parseInt(args[1]) || 3`,
`if (!codebasePath) exit(1)` (the empty string is falsy),
`if (intervalMinutes < 1) exit(1)`, else construct and `start()`. -/
def main (args : List String) : MainResult :=
  if args.contains "--help" || args.contains "-h" then MainResult.helpExit
  else
    let intervalMinutes := resolveInterval (args.get? 1)
    match args.get? 0 with
    | none => MainResult.missingPathExit
    | some p =>
        if p = "" then MainResult.missingPathExit
        else if intervalMinutes < 1 then MainResult.intervalExit
        else MainResult.started (start (initGatherer p intervalMinutes))

/-! ### Helper lemmas -/

/-- The report a settled call contributes to the log, branch by branch. -/
def outcomeReport : CallResult → Report
  | CallResult.resolved hasData statuscode detail timeTaken =>
      if hasData && statuscode == 200 then Report.completedSuccess detail timeTaken
      else Report.completedWarnings
  | CallResult.rejectedResponse status msg => Report.failedStatus status msg
  | CallResult.rejectedRequest => Report.failedNetwork
  | CallResult.rejectedOther msg => Report.failedOther msg

theorem gatherBegin_inFlight (s : GState) (h : s.isRunning = true) :
    gatherBegin s = { s with log := Report.skipped :: s.log } := by
  simp [gatherBegin, h]

theorem gatherBegin_idle (s : GState) (h : s.isRunning = false) :
    gatherBegin s =
      { s with isRunning := true, log := Report.starting s.codebasePath :: s.log } := by
  simp [gatherBegin, h]

theorem gatherComplete_eq (s : GState) (r : CallResult) :
    gatherComplete s r = { s with isRunning := false, log := outcomeReport r :: s.log } := by
  cases r with
  | resolved hasData statuscode detail timeTaken =>
      cases hc : (hasData && statuscode == 200) <;>
        simp [gatherComplete, outcomeReport, hc]
  | rejectedResponse status msg => rfl
  | rejectedRequest => rfl
  | rejectedOther msg => rfl

theorem outcomeReport_isOutcome (r : CallResult) :
    isOutcomeReport (outcomeReport r) = true := by
  cases r with
  | resolved hasData statuscode detail timeTaken =>
      cases hc : (hasData && statuscode == 200) <;>
        simp [outcomeReport, isOutcomeReport, isSuccessReport, isFailureReport, hc]
  | rejectedResponse status msg => rfl
  | rejectedRequest => rfl
  | rejectedOther msg => rfl

theorem outcomeReport_not_starting (r : CallResult) :
    isStartingReport (outcomeReport r) = false := by
  cases r with
  | resolved hasData statuscode detail timeTaken =>
      cases hc : (hasData && statuscode == 200) <;>
        simp [outcomeReport, isStartingReport, hc]
  | rejectedResponse status msg => rfl
  | rejectedRequest => rfl
  | rejectedOther msg => rfl

theorem invocCount_mk (p : String) (m : Int) (i : Option Unit) (b : Bool)
    (rep : Report) (l : List Report) :
    invocCount { codebasePath := p, intervalMinutes := m, intervalId := i,
                 isRunning := b, log := rep :: l } =
      (List.countP isStartingReport l) + (if isStartingReport rep then 1 else 0) := by
  simp [invocCount, List.countP_cons]

theorem invocCount_gatherComplete (s : GState) (r : CallResult) :
    invocCount (gatherComplete s r) = invocCount s := by
  rw [gatherComplete_eq]
  simp [invocCount, List.countP_cons, outcomeReport_not_starting]

/-- Whether the hook's settled call had `statuscode === 200`. -/
def hookOutcomeOk : HookCallResult → Bool
  | HookCallResult.resolved statuscode _ _ => statuscode == 200
  | HookCallResult.rejected _ => false

/-- The report the hook logs for a settled call. -/
def hookOutcomeReport : HookCallResult → HookReport
  | HookCallResult.resolved statuscode timeTaken detail =>
      HookReport.completed statuscode timeTaken detail
  | HookCallResult.rejected msg => HookReport.failed msg

theorem hookGatherComplete_eq (h : HookState) (r : HookCallResult) :
    hookGatherComplete h r =
      { h with isRunningRef := false,
               isContextGathered := h.isContextGathered || hookOutcomeOk r,
               log := hookOutcomeReport r :: h.log } := by
  cases r with
  | resolved statuscode timeTaken detail =>
      cases hc : (statuscode == 200) <;>
        simp [hookGatherComplete, hookOutcomeOk, hookOutcomeReport, hc]
  | rejected msg => simp [hookGatherComplete, hookOutcomeOk, hookOutcomeReport]

theorem hookGatherBegin_inFlight (h : HookState) (hr : h.isRunningRef = true) :
    hookGatherBegin h = h := by
  simp [hookGatherBegin, hr]

theorem hookGatherBegin_emptyPath (h : HookState) (hp : h.codebasePath = "") :
    hookGatherBegin h = h := by
  simp [hookGatherBegin, hp]

/-! ### Example states used by witnesses and counterexamples -/

/-- A node scheduler with an invocation in flight and the timer armed. -/
def gInFlightEx : GState :=
  { codebasePath := "p", intervalMinutes := 3, intervalId := some ()
    isRunning := true, log := [] }

/-- A node scheduler with the timer armed and no invocation in flight. -/
def gArmedIdleEx : GState :=
  { codebasePath := "p", intervalMinutes := 3, intervalId := some ()
    isRunning := false, log := [] }

/-- The hook with an invocation in flight. -/
def hInFlightEx : HookState :=
  { codebasePath := "p", isContextGathered := true, intervalRef := some ()
    isRunningRef := true, log := [] }

/-- The hook, idle, with a target set and no timer armed. -/
def hIdleEx : HookState :=
  { codebasePath := "p", isContextGathered := true, intervalRef := none
    isRunningRef := false, log := [] }

/-- The hook with an empty (cleared) codebase path. -/
def hEmptyPathEx : HookState :=
  { codebasePath := "", isContextGathered := true, intervalRef := some ()
    isRunningRef := false, log := [] }

/-- A scheduler started and then stopped while its first invocation is still
pending: Idle (timer cleared) yet in flight. -/
def gStoppedInFlightEx : GState := stop (start (initGatherer "p" 3))

/-! ### Claims -/

/-- Claim C1: for every scheduler instance, at most one invocation is in
flight at any time.  (1) A tick that fires while the in-flight flag is set
only logs the skip: no invocation, no state change, nothing queued.
(2) Any event-loop step that begins an invocation begins exactly one, does so
only from a state with the flag clear, and sets the flag — so invocation N+1
never begins before invocation N completes and releases the flag.
(3) A tick skipped during an in-flight invocation is dropped, not queued:
even after the pending invocation completes, no new invocation has begun.
(4) The hook's tick likewise does nothing at all while in flight. -/
theorem c1_serialized_no_overlap :
    (∀ s : GState, s.isRunning = true →
        gatherBegin s = { s with log := Report.skipped :: s.log }) ∧
    (∀ (s : GState) (e : GEvent), invocCount s < invocCount (step s e) →
        s.isRunning = false ∧ (step s e).isRunning = true ∧
        invocCount (step s e) = invocCount s + 1) ∧
    (∀ (s : GState) (r : CallResult), s.isRunning = true →
        invocCount (gatherComplete (gatherBegin s) r) = invocCount s) ∧
    (∀ h : HookState, h.isRunningRef = true → hookGatherBegin h = h) := by
  refine ⟨gatherBegin_inFlight, ?_, ?_, hookGatherBegin_inFlight⟩
  · intro s e hlt
    cases e with
    | timerFire =>
        cases hid : s.intervalId with
        | none => simp [step, hid] at hlt
        | some u =>
            cases hr : s.isRunning with
            | true =>
                rw [step.eq_def] at hlt
                simp only [hid] at hlt
                rw [gatherBegin_inFlight s hr] at hlt
                simp [invocCount, List.countP_cons, isStartingReport] at hlt
            | false =>
                refine ⟨rfl, ?_, ?_⟩ <;>
                  simp [step, hid, gatherBegin, hr, invocCount, List.countP_cons,
                    isStartingReport]
    | complete r =>
        cases hr : s.isRunning with
        | true =>
            simp only [step, hr, if_true] at hlt
            rw [invocCount_gatherComplete] at hlt
            exact absurd hlt (lt_irrefl _)
        | false => simp [step, hr] at hlt
    | startCall =>
        cases hid : s.intervalId with
        | some u =>
            simp [step, start, hid, invocCount, List.countP_cons, isStartingReport] at hlt
        | none =>
            cases hr : s.isRunning with
            | true =>
                simp [step, start, hid, gatherBegin, hr, invocCount, List.countP_cons,
                  isStartingReport] at hlt
            | false =>
                refine ⟨rfl, ?_, ?_⟩ <;>
                  simp [step, start, hid, gatherBegin, hr, invocCount, List.countP_cons,
                    isStartingReport]
    | stopCall =>
        cases hid : s.intervalId with
        | some u => simp [step, stop, hid, invocCount, List.countP_cons, isStartingReport] at hlt
        | none => simp [step, stop, hid] at hlt
  · intro s r hr
    rw [gatherBegin_inFlight s hr, invocCount_gatherComplete]
    simp [invocCount, List.countP_cons, isStartingReport]

/-- Witness for C1 at concrete states. -/
theorem c1_serialized_no_overlap_witness :
    gatherBegin gInFlightEx = { gInFlightEx with log := Report.skipped :: gInFlightEx.log } ∧
    (gArmedIdleEx.isRunning = false ∧ (step gArmedIdleEx GEvent.timerFire).isRunning = true ∧
      invocCount (step gArmedIdleEx GEvent.timerFire) = invocCount gArmedIdleEx + 1) ∧
    invocCount (gatherComplete (gatherBegin gInFlightEx) CallResult.rejectedRequest) =
      invocCount gInFlightEx ∧
    hookGatherBegin hInFlightEx = hInFlightEx :=
  ⟨c1_serialized_no_overlap.1 gInFlightEx rfl,
   c1_serialized_no_overlap.2.1 gArmedIdleEx GEvent.timerFire (by decide),
   c1_serialized_no_overlap.2.2.1 gInFlightEx CallResult.rejectedRequest rfl,
   c1_serialized_no_overlap.2.2.2 hInFlightEx rfl⟩

/-- Claim C2, counterexample.  Two failures of the claim as stated.
(1) Component-level: `startPeriodicGathering` on an idle hook with a valid
non-empty target arms the timer but performs zero immediate invocations — the
first invocation only happens when the first interval elapses.
(2) Process-level: a scheduler that was started and then stopped while its
invocation was still pending is Idle (timer cleared) with a valid target, yet
calling `start()` there performs no invocation: the immediate `gatherContext`
hits the in-flight guard and is skipped. -/
theorem c2_counterexample :
    ((startPeriodicGathering hIdleEx).intervalRef = some () ∧
      hookInvocCount (startPeriodicGathering hIdleEx) = 0) ∧
    ((stop (start (initGatherer "p" 3))).intervalId = none ∧
      (stop (start (initGatherer "p" 3))).codebasePath = "p" ∧
      (stop (start (initGatherer "p" 3))).isRunning = true ∧
      invocCount (start (stop (start (initGatherer "p" 3)))) =
        invocCount (stop (start (initGatherer "p" 3)))) := by decide

/-- Claim C2, amended: for the process-level scheduler, `start()` from Idle
performs exactly one invocation immediately and arms the timer, provided no
invocation from a previous run is still in flight; if one is, `start()` arms
the timer but the immediate invocation is skipped as overlap.  The
component-level `startPeriodicGathering` only arms the timer and performs no
immediate invocation. -/
theorem c2_amended_immediate_invocation :
    (∀ s : GState, s.intervalId = none → s.isRunning = false →
        invocCount (start s) = invocCount s + 1 ∧
        (start s).intervalId = some () ∧
        (start s).log = Report.starting s.codebasePath :: Report.startBanner :: s.log) ∧
    (∀ s : GState, s.intervalId = none → s.isRunning = true →
        invocCount (start s) = invocCount s ∧ (start s).intervalId = some () ∧
        (start s).log = Report.skipped :: Report.startBanner :: s.log) ∧
    (∀ h : HookState, h.intervalRef = none → h.codebasePath ≠ "" →
        (startPeriodicGathering h).intervalRef = some () ∧
        hookInvocCount (startPeriodicGathering h) = hookInvocCount h) := by
  refine ⟨?_, ?_, ?_⟩
  · intro s hid hr
    refine ⟨?_, ?_, ?_⟩ <;>
      simp [start, hid, gatherBegin, hr, invocCount, List.countP_cons, isStartingReport]
  · intro s hid hr
    refine ⟨?_, ?_, ?_⟩ <;>
      simp [start, hid, gatherBegin, hr, invocCount, List.countP_cons, isStartingReport]
  · intro h hid hp
    constructor <;>
      simp [startPeriodicGathering, hid, hp, hookInvocCount, List.countP_cons]

/-- Witness for the amended C2 at concrete states. -/
theorem c2_amended_immediate_invocation_witness :
    (invocCount (start (initGatherer "p" 3)) = invocCount (initGatherer "p" 3) + 1 ∧
      (start (initGatherer "p" 3)).intervalId = some () ∧
      (start (initGatherer "p" 3)).log =
        Report.starting "p" :: Report.startBanner :: (initGatherer "p" 3).log) ∧
    (invocCount (start gStoppedInFlightEx) = invocCount gStoppedInFlightEx ∧
      (start gStoppedInFlightEx).intervalId = some () ∧
      (start gStoppedInFlightEx).log =
        Report.skipped :: Report.startBanner :: gStoppedInFlightEx.log) ∧
    ((startPeriodicGathering hIdleEx).intervalRef = some () ∧
      hookInvocCount (startPeriodicGathering hIdleEx) = hookInvocCount hIdleEx) :=
  ⟨c2_amended_immediate_invocation.1 (initGatherer "p" 3) rfl rfl,
   c2_amended_immediate_invocation.2.1 gStoppedInFlightEx rfl rfl,
   c2_amended_immediate_invocation.2.2 hIdleEx rfl (by decide)⟩

/-- Claim C3: any settling of the remote call — success, logical failure,
HTTP error response, network error, or any other error — is handled inside
the tick: for every possible call result the completion is a total state
transformation (nothing propagates), it releases the in-flight flag, leaves
the timer handle and configuration untouched, and logs exactly one classified
outcome report.  The same holds for the hook. -/
theorem c3_failures_contained :
    (∀ (s : GState) (r : CallResult),
        (gatherComplete s r).isRunning = false ∧
        (gatherComplete s r).intervalId = s.intervalId ∧
        (gatherComplete s r).codebasePath = s.codebasePath ∧
        (gatherComplete s r).intervalMinutes = s.intervalMinutes ∧
        ∃ rep : Report, (gatherComplete s r).log = rep :: s.log ∧
          isOutcomeReport rep = true) ∧
    (∀ (h : HookState) (r : HookCallResult),
        (hookGatherComplete h r).isRunningRef = false ∧
        (hookGatherComplete h r).intervalRef = h.intervalRef ∧
        (hookGatherComplete h r).codebasePath = h.codebasePath ∧
        ∃ rep : HookReport, (hookGatherComplete h r).log = rep :: h.log) := by
  constructor
  · intro s r
    rw [gatherComplete_eq]
    exact ⟨rfl, rfl, rfl, rfl, outcomeReport r, rfl, outcomeReport_isOutcome r⟩
  · intro h r
    rw [hookGatherComplete_eq]
    exact ⟨rfl, rfl, rfl, hookOutcomeReport r, rfl⟩

/-- Claim C4, counterexample: in the component-level scheduler a tick that
finds an invocation already in flight is completely silent — the state
(including the log) is unchanged, so the skip is not reported at all, let
alone distinguishably from success and failure. -/
theorem c4_counterexample :
    hookGatherBegin hInFlightEx = hInFlightEx ∧
    (hookGatherBegin hInFlightEx).log = hInFlightEx.log := by decide

/-- Claim C4, amended: in the process-level scheduler a tick that finds an
invocation in flight logs the dedicated `skipped` report, which is neither a
success report nor a failure report — no skip report is ever an outcome
report.  In the component-level scheduler such a tick is silent: it produces
no report of any kind. -/
theorem c4_amended_skip_reporting :
    (∀ s : GState, s.isRunning = true →
        (gatherBegin s).log = Report.skipped :: s.log ∧
        invocCount (gatherBegin s) = invocCount s) ∧
    (isSuccessReport Report.skipped = false ∧
      isFailureReport Report.skipped = false ∧
      isSkipReport Report.skipped = true ∧
      ∀ rep : Report, isSkipReport rep = true → isOutcomeReport rep = false) ∧
    (∀ h : HookState, h.isRunningRef = true → hookGatherBegin h = h) := by
  refine ⟨?_, ⟨rfl, rfl, rfl, ?_⟩, hookGatherBegin_inFlight⟩
  · intro s hr
    rw [gatherBegin_inFlight s hr]
    constructor
    · rfl
    · simp [invocCount, List.countP_cons, isStartingReport]
  · intro rep hrep
    cases rep <;> simp_all [isSkipReport, isOutcomeReport, isSuccessReport, isFailureReport]

/-- Witness for the amended C4 at concrete states. -/
theorem c4_amended_skip_reporting_witness :
    ((gatherBegin gInFlightEx).log = Report.skipped :: gInFlightEx.log ∧
      invocCount (gatherBegin gInFlightEx) = invocCount gInFlightEx) ∧
    isOutcomeReport Report.skipped = false ∧
    hookGatherBegin hInFlightEx = hInFlightEx :=
  ⟨c4_amended_skip_reporting.1 gInFlightEx rfl,
   c4_amended_skip_reporting.2.1.2.2.2 Report.skipped rfl,
   c4_amended_skip_reporting.2.2 hInFlightEx rfl⟩

/-- Claim C5: calling `stop()` while an invocation is in flight clears the
timer handle (a subsequent timer fire is a no-op, so no further ticks occur)
but leaves the in-flight flag set: the pending invocation is not interrupted,
and when it settles — with any result — it still logs its outcome report and
releases the flag. -/
theorem c5_stop_preserves_in_flight :
    ∀ (s : GState) (r : CallResult), s.isRunning = true →
      (stop s).isRunning = true ∧
      (stop s).intervalId = none ∧
      step (stop s) GEvent.timerFire = stop s ∧
      (step (stop s) (GEvent.complete r)).isRunning = false ∧
      ∃ rep : Report, (step (stop s) (GEvent.complete r)).log = rep :: (stop s).log ∧
        isOutcomeReport rep = true := by
  intro s r hr
  have hrs : (stop s).isRunning = true := by
    cases hid : s.intervalId <;> simp [stop, hid, hr]
  have hids : (stop s).intervalId = none := by
    cases hid : s.intervalId <;> simp [stop, hid]
  refine ⟨hrs, hids, ?_, ?_, ?_⟩
  · simp [step, hids]
  · simp [step, hrs, gatherComplete_eq]
  · simp only [step, hrs, if_true]
    rw [gatherComplete_eq]
    exact ⟨outcomeReport r, rfl, outcomeReport_isOutcome r⟩

/-- Witness for C5 at a concrete in-flight state. -/
theorem c5_stop_preserves_in_flight_witness :
    (stop gInFlightEx).isRunning = true ∧
    (stop gInFlightEx).intervalId = none ∧
    step (stop gInFlightEx) GEvent.timerFire = stop gInFlightEx ∧
    (step (stop gInFlightEx) (GEvent.complete CallResult.rejectedRequest)).isRunning = false ∧
    ∃ rep : Report,
      (step (stop gInFlightEx) (GEvent.complete CallResult.rejectedRequest)).log =
        rep :: (stop gInFlightEx).log ∧ isOutcomeReport rep = true :=
  c5_stop_preserves_in_flight gInFlightEx CallResult.rejectedRequest rfl

/-- The hook after a legitimate start: timer armed. -/
def hRunningEx : HookState := startPeriodicGathering hIdleEx

/-- A hook state in flight whose `isContextGathered` flag is still clear. -/
def hNotGatheredEx : HookState :=
  { codebasePath := "p", isContextGathered := false, intervalRef := some ()
    isRunningRef := true, log := [] }

/-- Claim C6, counterexample: in the component-level scheduler, calling
`startPeriodicGathering` a second time on a running hook is a silent early
return — the state, including the log, is unchanged, so it is not reported as
already running (it is not reported at all). -/
theorem c6_counterexample :
    hRunningEx.intervalRef = some () ∧
    startPeriodicGathering hRunningEx = hRunningEx ∧
    (startPeriodicGathering hRunningEx).log = hRunningEx.log := by decide

/-- Claim C6, amended: a second `start()` without an intervening `stop()` is a
no-op in both implementations — no duplicate timer, invocation count
unaffected.  The process-level scheduler logs the dedicated "already running"
line, which is not a failure report; the component-level hook returns
silently with no report. -/
theorem c6_amended_idempotent_start :
    (∀ s : GState, s.intervalId = some () →
        start s = { s with log := Report.alreadyRunning :: s.log } ∧
        invocCount (start s) = invocCount s ∧
        (start s).intervalId = s.intervalId) ∧
    isFailureReport Report.alreadyRunning = false ∧
    (∀ h : HookState, h.intervalRef = some () → startPeriodicGathering h = h) := by
  refine ⟨?_, rfl, ?_⟩
  · intro s hid
    refine ⟨?_, ?_, ?_⟩ <;>
      simp [start, hid, invocCount, List.countP_cons, isStartingReport]
  · intro h hid
    simp [startPeriodicGathering, hid]

/-- Witness for the amended C6 at concrete states. -/
theorem c6_amended_idempotent_start_witness :
    (start gInFlightEx = { gInFlightEx with log := Report.alreadyRunning :: gInFlightEx.log } ∧
      invocCount (start gInFlightEx) = invocCount gInFlightEx ∧
      (start gInFlightEx).intervalId = gInFlightEx.intervalId) ∧
    startPeriodicGathering hRunningEx = hRunningEx :=
  ⟨c6_amended_idempotent_start.1 gInFlightEx rfl,
   c6_amended_idempotent_start.2.2 hRunningEx rfl⟩

/-- Reduces `main` on a help-free argument list with at least one argument. -/
theorem main_no_help (p : String) (rest : List String)
    (h1 : (p :: rest).contains "--help" = false)
    (h2 : (p :: rest).contains "-h" = false) :
    main (p :: rest) =
      (if p = "" then MainResult.missingPathExit
       else if resolveInterval (rest.get? 0) < 1 then MainResult.intervalExit
       else MainResult.started (start (initGatherer p (resolveInterval (rest.get? 0))))) := by
  have hc : ((p :: rest).contains "--help" || (p :: rest).contains "-h") = false := by
    rw [h1, h2]; rfl
  unfold main
  rw [hc]
  simp

/-- Claim C7, counterexample: the supplied interval value `"0"` is below the
minimum of 1, yet the process does not exit: `parseInt("0")` gives the falsy
`0`, so `parseInt(args[1]) || DEFAULT_INTERVAL_MINUTES` silently substitutes
the default and the scheduler is constructed and started with interval 3. -/
theorem c7_counterexample :
    main ["p", "0"] = MainResult.started (start (initGatherer "p" 3)) := by decide

/-- Claim C7, amended: `interval-minutes` falls back to the default of 3 when
the argument is absent, does not parse to an integer, or parses to `0` (all
falsy under `parseInt(args[1]) || 3`); a value parsing to an integer ≥ 1 —
decimal or `0x`-prefixed hexadecimal — starts the scheduler with that
interval; only a supplied value parsing to a negative integer makes the
process exit non-zero with the interval error, before any scheduler is
constructed or started. -/
theorem c7_amended_interval_validation :
    (∀ p : String, [p].contains "--help" = false → [p].contains "-h" = false →
        p ≠ "" → main [p] = MainResult.started (start (initGatherer p 3))) ∧
    (∀ p a : String, [p, a].contains "--help" = false → [p, a].contains "-h" = false →
        p ≠ "" →
        ((jsParseInt a = none ∨ jsParseInt a = some 0) →
            main [p, a] = MainResult.started (start (initGatherer p 3))) ∧
        (∀ n : Int, jsParseInt a = some n → n < 0 →
            main [p, a] = MainResult.intervalExit) ∧
        (∀ n : Int, jsParseInt a = some n → 1 ≤ n →
            main [p, a] = MainResult.started (start (initGatherer p n)))) := by
  constructor
  · intro p h1 h2 hp
    rw [main_no_help p [] h1 h2]
    simp [hp, resolveInterval, DEFAULT_INTERVAL_MINUTES]
  · intro p a h1 h2 hp
    refine ⟨?_, ?_, ?_⟩
    · intro hfalsy
      rw [main_no_help p [a] h1 h2]
      rcases hfalsy with hn | hn <;>
        simp [hp, resolveInterval, hn, DEFAULT_INTERVAL_MINUTES]
    · intro n hn hneg
      rw [main_no_help p [a] h1 h2]
      have hn0 : ¬ n = 0 := by omega
      have hlt : n < 1 := by omega
      simp [hp, resolveInterval, hn, hn0, hlt]
    · intro n hn hge
      rw [main_no_help p [a] h1 h2]
      have hn0 : ¬ n = 0 := by omega
      have hlt : ¬ n < 1 := by omega
      simp [hp, resolveInterval, hn, hn0, hlt]

/-- Witness for the amended C7 at concrete arguments, including hexadecimal
inputs that JavaScript `parseInt` accepts without a radix argument. -/
theorem c7_amended_interval_validation_witness :
    main ["x"] = MainResult.started (start (initGatherer "x" 3)) ∧
    main ["x", "abc"] = MainResult.started (start (initGatherer "x" 3)) ∧
    main ["x", "-2"] = MainResult.intervalExit ∧
    main ["x", "-0x10"] = MainResult.intervalExit ∧
    main ["x", "5"] = MainResult.started (start (initGatherer "x" 5)) ∧
    main ["x", "0x10"] = MainResult.started (start (initGatherer "x" 16)) :=
  ⟨c7_amended_interval_validation.1 "x" (by decide) (by decide) (by decide),
   (c7_amended_interval_validation.2 "x" "abc" (by decide) (by decide) (by decide)).1
     (Or.inl (by decide)),
   (c7_amended_interval_validation.2 "x" "-2" (by decide) (by decide) (by decide)).2.1
     (-2) (by decide) (by decide),
   (c7_amended_interval_validation.2 "x" "-0x10" (by decide) (by decide) (by decide)).2.1
     (-16) (by decide) (by decide),
   (c7_amended_interval_validation.2 "x" "5" (by decide) (by decide) (by decide)).2.2
     5 (by decide) (by decide),
   (c7_amended_interval_validation.2 "x" "0x10" (by decide) (by decide) (by decide)).2.2
     16 (by decide) (by decide)⟩

/-- Claim C8, counterexample: the class-level `start()` performs no target
validation at all — on a scheduler constructed with the empty string as
target it logs the banner, issues the invocation for the empty path, and arms
the timer, instead of failing validation before any invocation. -/
theorem c8_counterexample :
    (start (initGatherer "" 3)).log = [Report.starting "", Report.startBanner] ∧
    invocCount (start (initGatherer "" 3)) = 1 := by decide

/-- Claim C8, amended: the empty target is rejected at CLI-parse time, not by
`start()`: `main` with an empty (or missing) codebase path exits non-zero
before any scheduler is constructed, so no invocation is issued through the
CLI; the component-level tick silently skips when the target is empty.  The
scheduler class itself performs no target validation. -/
theorem c8_amended_empty_target :
    (∀ rest : List String, ("" :: rest).contains "--help" = false →
        ("" :: rest).contains "-h" = false →
        main ("" :: rest) = MainResult.missingPathExit) ∧
    main [] = MainResult.missingPathExit ∧
    (∀ h : HookState, h.codebasePath = "" → hookGatherBegin h = h) := by
  refine ⟨?_, by decide, hookGatherBegin_emptyPath⟩
  intro rest h1 h2
  rw [main_no_help "" rest h1 h2]
  simp

/-- Witness for the amended C8 at concrete inputs. -/
theorem c8_amended_empty_target_witness :
    main ["", "5"] = MainResult.missingPathExit ∧
    hookGatherBegin hEmptyPathEx = hEmptyPathEx :=
  ⟨c8_amended_empty_target.1 ["5"] (by decide) (by decide),
   c8_amended_empty_target.2.2 hEmptyPathEx rfl⟩

/-- Claim C9, counterexample: in the component-level scheduler the outcome is
not consumed only for reporting — a successful (`statuscode === 200`) result
is fed back into application state: `setContextGathered(true)` flips the
app's `isContextGathered` flag, which the hook's effect uses to decide
whether periodic gathering stays active. -/
theorem c9_counterexample :
    hNotGatheredEx.isContextGathered = false ∧
    (hookGatherComplete hNotGatheredEx
        (HookCallResult.resolved 200 5 "ok")).isContextGathered = true := by decide

/-- Claim C9, amended: in the process-level scheduler a tick changes nothing
but the in-flight flag and the appended reports — target, interval and timer
handle are untouched and no part of the outcome is stored.  In the
component-level scheduler the same holds except that a resolved outcome with
`statuscode === 200` additionally sets the application's `isContextGathered`
flag; failed outcomes change nothing beyond the flag and the log there
either. -/
theorem c9_amended_outcome_frame :
    (∀ (s : GState) (r : CallResult),
        (gatherBegin s).codebasePath = s.codebasePath ∧
        (gatherBegin s).intervalMinutes = s.intervalMinutes ∧
        (gatherBegin s).intervalId = s.intervalId ∧
        (gatherComplete s r).codebasePath = s.codebasePath ∧
        (gatherComplete s r).intervalMinutes = s.intervalMinutes ∧
        (gatherComplete s r).intervalId = s.intervalId) ∧
    (∀ (h : HookState) (r : HookCallResult),
        (hookGatherComplete h r).codebasePath = h.codebasePath ∧
        (hookGatherComplete h r).intervalRef = h.intervalRef ∧
        (hookGatherComplete h r).isContextGathered =
          (h.isContextGathered || hookOutcomeOk r)) ∧
    (∀ (t : Nat) (d : String), hookOutcomeOk (HookCallResult.resolved 200 t d) = true) ∧
    (∀ msg : String, hookOutcomeOk (HookCallResult.rejected msg) = false) := by
  refine ⟨?_, ?_, fun t d => by simp [hookOutcomeOk], fun msg => rfl⟩
  · intro s r
    rw [gatherComplete_eq]
    cases hr : s.isRunning <;> simp [gatherBegin, hr]
  · intro h r
    rw [hookGatherComplete_eq]
    exact ⟨rfl, rfl, rfl⟩

/-- Claim C10: a component-level tick that fires with an empty or cleared
target returns silently — the state, including the log, is unchanged, so
there is no invocation, no error and no report; it is the same early-return
guard that absorbs an in-flight overlap. -/
theorem c10_empty_target_silent_skip :
    ∀ h : HookState,
      (h.codebasePath = "" → hookGatherBegin h = h) ∧
      (h.isRunningRef = true → hookGatherBegin h = h) := fun h =>
  ⟨hookGatherBegin_emptyPath h, hookGatherBegin_inFlight h⟩

/-- Witness for C10 at concrete states. -/
theorem c10_empty_target_silent_skip_witness :
    hookGatherBegin hEmptyPathEx = hEmptyPathEx ∧
    hookGatherBegin hInFlightEx = hInFlightEx :=
  ⟨(c10_empty_target_silent_skip hEmptyPathEx).1 rfl,
   (c10_empty_target_silent_skip hInFlightEx).2 rfl⟩

end PeriodicContextGather
